import Mathlib

/-!
Verification of the scrappey-wrapper client against its design specification.

The Python sources embedded here are:
- `scrappey_wrapper/scrappey.py` : `ScrappeyClient` (retry loop `async_scrape`,
  batch operation `concurrent_scrape`, transport `_make_request`, backoff
  `_get_retry_delay`, constructor clamping, `RETRYABLE_ERRORS`,
  `_is_retryable_error`);
- `scrappey_wrapper/config.py` : `ScrapeConfig.to_scrappey_payload` browser-action
  construction and `_convert_js_scenario_action`;
- `scrappey_wrapper/exceptions.py` : the exception taxonomy.

Stateful / asynchronous behaviour (the retry loop, semaphore, sleeps) is
embedded as pure functions that additionally return an event trace recording
transport calls, backoff sleeps, and slot acquisition/release.
-/

namespace Scrappey

/-! ### String helpers (Python `in` / `str.lower()` on strings) -/

/-- Whether the first list is an initial segment of the second
(Python list/str equality-based matching). -/
def leadsList : List Char → List Char → Bool
  | [], _ => true
  | _ :: _, [] => false
  | a :: as, b :: bs => a = b && leadsList as bs

/-- Whether `pat` occurs contiguously somewhere inside `hay`. -/
def substrAux (pat : List Char) : List Char → Bool
  | [] => pat.isEmpty
  | c :: rest => leadsList pat (c :: rest) || substrAux pat rest

/-- Python `pat in hay` for strings: contiguous-substring containment. -/
def containsSub (hay pat : String) : Bool :=
  substrAux pat.toList hay.toList

/-- Python `s.lower()` (ASCII-level model using `Char.toLower`). -/
def strLower (s : String) : String :=
  String.mk (s.toList.map Char.toLower)

/-! ### `RETRYABLE_ERRORS` and `_is_retryable_error` (scrappey.py lines 23-39, 116-119) -/

/-- scrappey.py lines 24-39: the keyword list labelled
"Errors that should trigger a retry". -/
def RETRYABLE_ERRORS : List String :=
  ["browser closed", "browser disconnected", "target closed", "page closed",
   "navigation failed", "net::err", "timeout", "econnreset", "econnrefused",
   "socket hang up", "network error", "protocol error", "session not found",
   "context destroyed"]

/-- scrappey.py lines 116-119: `_is_retryable_error` lowercases the message and
tests whether any keyword of `RETRYABLE_ERRORS` occurs in it. -/
def _is_retryable_error (error_message : String) : Bool :=
  RETRYABLE_ERRORS.any (fun err => containsSub (strLower error_message) err)

/-! ### Exception taxonomy (exceptions.py) -/

/-- The `ScrappeyError` hierarchy of exceptions.py. Every variant carries the
`message` passed to `__init__` (which is also `str(e)`, since the constructor
forwards `message` to `Exception.__init__`) and the optional `code`.
`otherError` stands for any non-Scrappey exception (e.g. `httpx` errors caught
by the broad `except` clause). -/
inductive ScrapErr where
  | authError (message : String) (code : Option String)
  | timeoutError (message : String) (code : Option String)
  | requestError (message : String) (code : Option String)
  | otherError (message : String)
deriving DecidableEq, Repr

/-- Python `str(e)` for the embedded exceptions: the message. -/
def strOfErr : ScrapErr → String
  | .authError m _ => m
  | .timeoutError m _ => m
  | .requestError m _ => m
  | .otherError m => m

/-- Python `getattr(e, 'code', None)`. -/
def codeOfErr : ScrapErr → Option String
  | .authError _ c => c
  | .timeoutError _ c => c
  | .requestError _ c => c
  | .otherError _ => none

/-- Whether the exception is a `ScrappeyAuthError`
(the only class given special treatment by the retry loop). -/
def isAuthErr : ScrapErr → Bool
  | .authError _ _ => true
  | _ => false

/-! ### Decoded response bodies and the transport `_make_request`
(scrappey.py lines 133-185) -/

/-- The JSON dict returned by the Scrappey API (fields relevant to control
flow), and also the dict handed to `ScrapeApiResponse`. `error` and `code`
model the presence/absence of the corresponding keys; `solutionHtml` and
`solutionStatus` model `solution.html` / `solution.status` of the synthetic
empty response built after retry exhaustion. -/
structure RespBody where
  error : Option String := none
  code : Option String := none
  solutionHtml : Option String := none
  solutionStatus : Option Int := none
deriving DecidableEq, Repr

/-- scrappey.py lines 234-236: the dict
`{"solution": {"html": "", "status": 0}, "error": str(last_error)}`
returned after all retries failed. -/
def emptyResponse (last_error : ScrapErr) : RespBody :=
  { error := some (strOfErr last_error)
    code := none
    solutionHtml := some ""
    solutionStatus := some 0 }

/-- The raw result of the HTTP POST inside `_make_request`: either a decoded
response (status code plus JSON body) or an `httpx` exception
(`TimeoutException` / `HTTPError`). -/
inductive RawHttp where
  | resp (status : Int) (body : RespBody)
  | timeoutExc (msg : String)
  | httpError (msg : String)
deriving DecidableEq, Repr

/-- scrappey.py lines 148-185: classification performed by `_make_request`.
If the decoded body has an `error` key, the error code (key `code`, default
`"UNKNOWN"`) is compared with `"CODE-0001"` for `ScrappeyAuthError`; otherwise
a case-insensitive `"timeout"` substring test selects `ScrappeyTimeoutError`;
otherwise `ScrappeyRequestError` carries the vendor message and code. The HTTP
status code is never inspected. `httpx` transport exceptions map to
`ScrappeyTimeoutError` / `ScrappeyRequestError` with no vendor code. -/
def _make_request : RawHttp → Except ScrapErr RespBody
  | .resp _ body =>
    match body.error with
    | some error_message =>
      let error_code := body.code.getD "UNKNOWN"
      if error_code = "CODE-0001" then
        .error (.authError error_message (some error_code))
      else if containsSub (strLower error_message) "timeout" then
        .error (.timeoutError error_message (some error_code))
      else
        .error (.requestError error_message (some error_code))
    | none => .ok body
  | .timeoutExc m => .error (.timeoutError ("Request timed out: " ++ m) none)
  | .httpError m => .error (.requestError ("HTTP error: " ++ m) none)

/-! ### Backoff `_get_retry_delay` (scrappey.py lines 121-127) -/

/-- scrappey.py lines 121-127: exponential backoff with jitter.
`retry_delay` is the configured base delay, `retry_max_delay` the cap,
`attempt` the 0-based attempt index, and `r` the value drawn by
`random.random()` (so `0 ≤ r ≤ 1`). Real arithmetic is modelled over `ℚ`.
The code computes `delay = retry_delay * 2 ** attempt`, caps it with
`min(delay, retry_max_delay)`, then adds `delay * 0.25 * (2*r - 1)`. -/
def _get_retry_delay (retry_delay retry_max_delay : ℚ) (attempt : Nat) (r : ℚ) : ℚ :=
  let delay := retry_delay * 2 ^ attempt
  let capped := min delay retry_max_delay
  let jitter := capped * (1/4) * (2 * r - 1)
  capped + jitter

/-! ### Client construction (scrappey.py lines 67-100) -/

/-- Python string truthiness for `Optional[str]`: `None` and `""` are falsy. -/
def pyTruthyStr : Option String → Option String
  | none => none
  | some s => if s = "" then none else some s

/-- scrappey.py line 65: `MAX_ALLOWED_CONCURRENCY = 100`. -/
def MAX_ALLOWED_CONCURRENCY : Int := 100

/-- scrappey.py lines 88-93: `__init__` clamps `max_concurrency` below by 1 and
above by `MAX_ALLOWED_CONCURRENCY`; out-of-range values are never rejected. -/
def clampConcurrency (max_concurrency : Int) : Int :=
  if max_concurrency < 1 then 1
  else if max_concurrency > MAX_ALLOWED_CONCURRENCY then MAX_ALLOWED_CONCURRENCY
  else max_concurrency

/-- The fields of `ScrappeyClient` that the verified claims inspect. -/
structure Client where
  api_key : String
  max_concurrency : Int
deriving DecidableEq, Repr

/-- scrappey.py lines 67-100: `ScrappeyClient.__init__`. The key is
`key or os.environ.get("SCRAPPEY_KEY")`; a falsy resolved key raises
`ScrappeyAuthError`; `max_concurrency` is clamped, never rejected. -/
def mkClient (key envKey : Option String) (max_concurrency : Int) :
    Except ScrapErr Client :=
  let api_key :=
    match pyTruthyStr key with
    | some s => some s
    | none => envKey
  match pyTruthyStr api_key with
  | none => .error (.authError
      "API key is required. Set SCRAPPEY_KEY environment variable or pass key parameter." none)
  | some k => .ok { api_key := k, max_concurrency := clampConcurrency max_concurrency }

/-! ### Request translation: browser actions (config.py lines 39-178) -/

/-- A value stored in `ScrapeConfig.extra` (a `Dict[str, Any]`);
only the shapes the translator inspects are modelled. -/
inductive PVal where
  | pstr (v : String)
  | pbool (v : Bool)
  | pint (v : Int)
deriving DecidableEq, Repr

/-- Python truthiness of an `extra` value. -/
def pvalTruthy : PVal → Bool
  | .pstr v => v ≠ ""
  | .pbool v => v
  | .pint v => v ≠ 0

/-- An entry of the Scrappey `browserActions` array as built by
`to_scrappey_payload` / `_convert_js_scenario_action`. `ignoreErrors` models
the presence of the `"ignoreErrors": True` key; `rawOther` stands for an
unrecognized scenario action returned unchanged. -/
inductive BAction where
  | waitForSelector (cssSelector : Option String) (timeout : Int) (ignoreErrors : Bool)
  | click (cssSelector : Option String) (ignoreErrors : Bool)
  | wait (amount : ℚ)
  | scroll (cssSelector : Option String)
  | executeJs (code : String)
  | typeText (cssSelector : Option String) (text : String)
  | rawOther
deriving DecidableEq, Repr

/-- A ScrapFly-style `js_scenario` action dict, by the key on which
`_convert_js_scenario_action` dispatches (its `if`/`elif` chain):
`wait_for_selector`, `click`, `wait`, `scroll`, `execute_js`/`js`,
`type`+`selector`, or anything else. -/
inductive JsAction where
  | waitForSelectorA (selector : Option String) (timeout : Option Int)
  | clickA (selector : Option String) (ignore_if_not_visible : Bool)
  | waitA (amount : ℚ)
  | scrollA (selector : Option String)
  | executeJsA (code : String)
  | typeA (selector : Option String) (text : Option String)
  | otherA
deriving DecidableEq, Repr

/-- config.py lines 146-178: `_convert_js_scenario_action`. -/
def _convert_js_scenario_action : JsAction → BAction
  | .waitForSelectorA sel tmo => .waitForSelector sel (tmo.getD 30000) false
  | .clickA sel ignoreNV => .click sel ignoreNV
  | .waitA w => .wait w
  | .scrollA sel => .scroll sel
  | .executeJsA code => .executeJs code
  | .typeA sel text => .typeText sel (text.getD "")
  | .otherA => .rawOther

/-- The fields of `ScrapeConfig` (config.py lines 8-37) that feed the
browser-actions construction, with the dataclass defaults. -/
structure ScrapeConfig where
  url : String := ""
  wait_for_selector : Option String := none
  js : Option String := none
  js_scenario : Option (List JsAction) := none
  auto_scroll : Bool := false
  rendering_wait : Option Int := none
  extra : List (String × PVal) := []
deriving DecidableEq, Repr

/-- Python truthiness of `Optional[str]` as a `Bool` test. -/
def optStrTruthy : Option String → Bool
  | none => false
  | some s => s ≠ ""

/-- Python truthiness of `Optional[List[...]]`: `None` and `[]` are falsy. -/
def optListTruthy {α : Type} : Option (List α) → Bool
  | none => false
  | some l => !l.isEmpty

/-- Python truthiness of `Optional[int]`: `None` and `0` are falsy. -/
def optIntTruthy : Option Int → Bool
  | none => false
  | some n => n ≠ 0

/-- Python `self.extra.get(k)`. -/
def extraGet (cfg : ScrapeConfig) (k : String) : Option PVal :=
  (cfg.extra.find? (fun p => p.1 = k)).map (fun p => p.2)

/-- config.py line 83: `if self.extra.get("waitForSelectorIgnoreErrors")`. -/
def extraIgnoreErrors (cfg : ScrapeConfig) : Bool :=
  match extraGet cfg "waitForSelectorIgnoreErrors" with
  | none => false
  | some v => pvalTruthy v

/-- config.py line 104: `rendering_wait / 1000 if rendering_wait > 100 else
rendering_wait` (milliseconds to seconds). -/
def waitSeconds (rw : Int) : ℚ :=
  if rw > 100 then (rw : ℚ) / 1000 else (rw : ℚ)

/-- config.py lines 74-108: the `browser_actions` list built inside
`to_scrappey_payload`, by successive conditional appends: selector wait, then
the `js_scenario` actions, then standalone `js`, then `auto_scroll`, then
`rendering_wait`. (The resulting list is stored under the payload key
`"browserActions"` at line 111 when nonempty.) -/
def browser_actions (cfg : ScrapeConfig) : List BAction :=
  let acts : List BAction := []
  let acts := if optStrTruthy cfg.wait_for_selector then
      acts ++ [.waitForSelector cfg.wait_for_selector 30000 (extraIgnoreErrors cfg)]
    else acts
  let acts := if optListTruthy cfg.js_scenario then
      acts ++ (cfg.js_scenario.getD []).map _convert_js_scenario_action
    else acts
  let acts := if optStrTruthy cfg.js then
      acts ++ [.executeJs (cfg.js.getD "")]
    else acts
  let acts := if cfg.auto_scroll then
      acts ++ [.scroll none]
    else acts
  let acts := if optIntTruthy cfg.rendering_wait then
      acts ++ [.wait (waitSeconds (cfg.rendering_wait.getD 0))]
    else acts
  acts

/-- The concrete configuration of the spec's round-trip property: a selector
wait, two scripted actions (a click and a wait), and auto-scroll. -/
def exampleCfg : ScrapeConfig :=
  { url := "https://example.com"
    wait_for_selector := some "#content"
    js_scenario := some [.clickA (some "#load-more") false, .waitA 2]
    auto_scroll := true }

/-! ### The dispatcher: `async_scrape` retry loop (scrappey.py lines 200-237),
`scrape_with_semaphore` and `concurrent_scrape` (lines 239-263).

The transport is abstracted as an oracle `Nat → Except ScrapErr RespBody`
giving the result `_make_request` produces on the attempt with that 0-based
index. Executions additionally return a trace of events: transport calls,
backoff sleeps, and semaphore acquisition/release. -/

/-- An observable event of a dispatcher run. `call i` is the `_make_request`
invocation of attempt `i`; `sleep i` is the `asyncio.sleep` backoff after the
failed attempt `i`; `acquire`/`release` delimit holding the
`asyncio.Semaphore` slot. -/
inductive Ev where
  | acquire
  | release
  | call (attempt : Nat)
  | sleep (attempt : Nat)
deriving DecidableEq, Repr

/-- A transport oracle: the outcome of `_make_request` on each attempt. -/
abbrev Transport := Nat → Except ScrapErr RespBody

/-- What `async_scrape` does at the Python level: return a response dict
normally (a scraped response, or the synthetic empty response after
exhaustion), or re-raise a `ScrappeyAuthError`. -/
inductive AsyncResult where
  | ok (resp : RespBody)
  | authRaise (e : ScrapErr)
deriving DecidableEq, Repr

/-- scrappey.py lines 207-237: the body of the retry loop
`for attempt in range(self.max_retries + 1)`, with `remaining` the number of
loop iterations still allowed after the current one
(`remaining = max_retries - attempt`). Each iteration calls `_make_request`;
success returns the response; `ScrappeyAuthError` is re-raised immediately;
any other exception either breaks out (when `attempt >= max_retries`,
i.e. `remaining = 0`) to return the empty response carrying `last_error`, or
sleeps for the backoff delay and retries. -/
def scrapeGo (transport : Transport) : Nat → Nat → AsyncResult × List Ev
  | attempt, 0 =>
    match transport attempt with
    | .ok resp => (.ok resp, [.call attempt])
    | .error e =>
      if isAuthErr e then (.authRaise e, [.call attempt])
      else (.ok (emptyResponse e), [.call attempt])
  | attempt, r + 1 =>
    match transport attempt with
    | .ok resp => (.ok resp, [.call attempt])
    | .error e =>
      if isAuthErr e then (.authRaise e, [.call attempt])
      else
        let rest := scrapeGo transport (attempt + 1) r
        (rest.1, .call attempt :: .sleep attempt :: rest.2)

/-- scrappey.py lines 200-237: `async_scrape` with `max_retries` retries,
starting at attempt 0. -/
def async_scrape (transport : Transport) (max_retries : Nat) :
    AsyncResult × List Ev :=
  scrapeGo transport 0 max_retries

/-- Whether an event is a transport call. -/
def isCall : Ev → Bool
  | .call _ => true
  | _ => false

/-- Whether an event is a backoff sleep. -/
def isSleep : Ev → Bool
  | .sleep _ => true
  | _ => false

/-- Whether an event is a transport call or a backoff sleep (the only events
`async_scrape` itself produces). -/
def evCallOrSleep : Ev → Bool
  | .call _ => true
  | .sleep _ => true
  | _ => false

/-- Number of transport invocations recorded in a trace. -/
def callCount (tr : List Ev) : Nat :=
  (tr.filter isCall).length

/-- Whether some sleep event of the trace happens while at least one
semaphore slot is held; `held` counts the currently held slots. -/
def sleepsWhileHeld : List Ev → Nat → Bool
  | [], _ => false
  | .acquire :: tr, held => sleepsWhileHeld tr (held + 1)
  | .release :: tr, held => sleepsWhileHeld tr (held - 1)
  | .sleep _ :: tr, held => decide (0 < held) || sleepsWhileHeld tr held
  | .call _ :: tr, held => sleepsWhileHeld tr held

/-- An element yielded by `concurrent_scrape`: either a `ScrapeApiResponse`
(carrying its raw dict) or a `ScrapflyScrapeError` value. -/
inductive BatchItem where
  | response (r : RespBody)
  | scrapflyError (message : String) (code : Option String)
deriving DecidableEq, Repr

/-- Whether a yielded batch element is a `ScrapflyScrapeError` value. -/
def isScrapflyError : BatchItem → Bool
  | .scrapflyError _ _ => true
  | _ => false

/-- scrappey.py lines 246-257: `scrape_with_semaphore` enters
`async with semaphore`, runs the whole of `async_scrape` inside it, catches
any `ScrappeyError` (in practice only the re-raised `ScrappeyAuthError`
escapes `async_scrape`) and converts it into a `ScrapflyScrapeError`-typed
value with `message=str(e)` and `code=getattr(e, 'code', None)`; the slot is
released when the `async with` block exits. -/
def scrape_with_semaphore (transport : Transport) (max_retries : Nat) :
    BatchItem × List Ev :=
  let inner := async_scrape transport max_retries
  (match inner.1 with
   | .ok r => .response r
   | .authRaise e => .scrapflyError (strOfErr e) (codeOfErr e),
   .acquire :: inner.2 ++ [.release])

/-- scrappey.py lines 239-263: `concurrent_scrape` creates one
`scrape_with_semaphore` task per config and yields each task's result
(`asyncio.as_completed` delivers them in completion order; the multiset of
results is the one modelled here, listed per input). Each config is
represented by its transport oracle. -/
def concurrent_scrape (transports : List Transport) (max_retries : Nat) :
    List BatchItem :=
  transports.map (fun t => (scrape_with_semaphore t max_retries).1)

/-! ### Concrete transports used in witnesses and counterexamples -/

/-- A transport whose every attempt fails with a vendor `ScrappeyRequestError`. -/
def alwaysRequestError : Transport :=
  fun _ => .error (.requestError "boom" (some "UNKNOWN"))

/-- A transport whose every attempt fails with a `ScrappeyAuthError`
(vendor code `CODE-0001`). -/
def alwaysAuthError : Transport :=
  fun _ => .error (.authError "bad key" (some "CODE-0001"))

/-- A transport that fails transiently on attempts 0 and 1 and succeeds on
attempt 2. -/
def failTwiceTransport : Transport := fun i =>
  if i < 2 then .error (.requestError "net::err reset" none) else .ok {}

/-- A transport that fails transiently on attempt 0 and succeeds on attempt 1. -/
def failOnceTransport : Transport := fun i =>
  if i = 0 then .error (.requestError "socket hang up" none) else .ok {}

/-! ### Helper lemmas -/

/-- Counting calls past a leading call-and-sleep pair of a trace. -/
theorem callCount_cons_call_sleep (a b : Nat) (l : List Ev) :
    callCount (.call a :: .sleep b :: l) = callCount l + 1 := by
  simp [callCount, List.filter, isCall]

/-- When every attempt of the transport fails with a non-auth error, the retry
loop starting at `attempt` with `r` iterations left performs `r + 1` transport
calls and returns the synthetic empty response built from the error of the
final attempt. -/
theorem scrapeGo_allFail (t : Transport)
    (h : ∀ i, ∃ e, t i = .error e ∧ isAuthErr e = false) :
    ∀ r attempt e, t (attempt + r) = .error e →
      (scrapeGo t attempt r).1 = .ok (emptyResponse e) ∧
      callCount (scrapeGo t attempt r).2 = r + 1 := by
  intro r
  induction r with
  | zero =>
    intro attempt e he
    rw [Nat.add_zero] at he
    obtain ⟨e0, he0, ha0⟩ := h attempt
    have hee : e0 = e := by rw [he] at he0; exact (Except.error.inj he0).symm
    subst hee
    constructor
    · simp [scrapeGo, he, ha0]
    · simp [scrapeGo, he, ha0, callCount, List.filter, isCall]
  | succ r ih =>
    intro attempt e he
    obtain ⟨e0, he0, ha0⟩ := h attempt
    have hred : scrapeGo t attempt (r + 1) =
        ((scrapeGo t (attempt + 1) r).1,
          .call attempt :: .sleep attempt :: (scrapeGo t (attempt + 1) r).2) := by
      simp [scrapeGo, he0, ha0]
    have hIH := ih (attempt + 1) e (by rw [show attempt + 1 + r = attempt + (r + 1) by omega]; exact he)
    constructor
    · rw [hred]; exact hIH.1
    · rw [hred, callCount_cons_call_sleep, hIH.2]

/-- The retry loop itself emits only transport-call and sleep events
(never semaphore events). -/
theorem scrapeGo_events (t : Transport) :
    ∀ r attempt, ((scrapeGo t attempt r).2).all evCallOrSleep = true := by
  intro r
  induction r with
  | zero =>
    intro attempt
    cases ht : t attempt with
    | ok resp => simp [scrapeGo, ht, evCallOrSleep]
    | error e =>
      by_cases ha : isAuthErr e = true
      · simp [scrapeGo, ht, ha, evCallOrSleep]
      · simp [scrapeGo, ht, ha, evCallOrSleep]
  | succ r ih =>
    intro attempt
    cases ht : t attempt with
    | ok resp => simp [scrapeGo, ht, evCallOrSleep]
    | error e =>
      by_cases ha : isAuthErr e = true
      · simp [scrapeGo, ht, ha, evCallOrSleep]
      · simp only [scrapeGo, ht, ha]
        simp [evCallOrSleep, ih (attempt + 1)]

/-- If a trace of call/sleep events contains a sleep, then running it with one
slot held reaches that sleep while the slot is still held. -/
theorem sleeps_held (l : List Ev) (hall : l.all evCallOrSleep = true)
    (hs : l.any isSleep = true) :
    sleepsWhileHeld (l ++ [.release]) 1 = true := by
  induction l with
  | nil => simp at hs
  | cons ev tl ih =>
    rw [List.all_cons] at hall
    obtain ⟨h1, h2⟩ := Bool.and_eq_true_iff.mp hall
    cases ev with
    | call a =>
      rw [List.any_cons] at hs
      simp only [isSleep, Bool.false_or] at hs
      show sleepsWhileHeld (tl ++ [.release]) 1 = true
      exact ih h2 hs
    | sleep a =>
      show (decide (0 < 1) || sleepsWhileHeld (tl ++ [.release]) 1) = true
      simp
    | acquire => simp [evCallOrSleep] at h1
    | release => simp [evCallOrSleep] at h1

/-- A non-truthy optional action list contributes no converted actions. -/
theorem map_getD_of_not_truthy {α β : Type} (s : Option (List α)) (f : α → β)
    (h : optListTruthy s = false) : (s.getD []).map f = [] := by
  cases s with
  | none => rfl
  | some l =>
    cases l with
    | nil => rfl
    | cons a l' => simp [optListTruthy] at h

/-! ### Claim C1 -/

/-- C1 counterexample: the claim asserts that a request whose every attempt
fails yields a `ScrapflyScrapeError` sequence element. On the code, a request
whose every attempt fails with a non-auth error (here a vendor
`ScrappeyRequestError "boom"`) yields an ordinary `ScrapeApiResponse` element
built from the synthetic empty dict — not a `ScrapflyScrapeError`. -/
theorem c1_counterexample :
    concurrent_scrape [alwaysRequestError] 3 =
      [.response (emptyResponse (.requestError "boom" (some "UNKNOWN")))] ∧
    isScrapflyError
      (BatchItem.response (emptyResponse (.requestError "boom" (some "UNKNOWN")))) = false :=
  ⟨rfl, rfl⟩

/-- C1 (amended): `concurrent_scrape` yields exactly one result per input
element and no per-request exception propagates out of the batch; a request
whose every attempt fails with an auth error yields a `ScrapflyScrapeError`
element, while a request whose every attempt fails with a non-auth error
yields an ordinary `ScrapeApiResponse` element carrying the synthetic empty
response with the last error recorded in its `error` field. -/
theorem c1_batch_always_delivers (ts : List Transport) (mr : Nat) :
    (concurrent_scrape ts mr).length = ts.length ∧
    (∀ t, (∀ i, ∃ m c, t i = .error (.authError m c)) →
      ∃ m c, (scrape_with_semaphore t mr).1 = .scrapflyError m c) ∧
    (∀ t, (∀ i, ∃ e, t i = .error e ∧ isAuthErr e = false) →
      ∃ e, (scrape_with_semaphore t mr).1 = .response (emptyResponse e)) := by
  refine ⟨by simp [concurrent_scrape], ?_, ?_⟩
  · intro t h
    obtain ⟨m, c, h0⟩ := h 0
    refine ⟨m, c, ?_⟩
    cases mr with
    | zero => simp [scrape_with_semaphore, async_scrape, scrapeGo, h0, isAuthErr, strOfErr, codeOfErr]
    | succ r => simp [scrape_with_semaphore, async_scrape, scrapeGo, h0, isAuthErr, strOfErr, codeOfErr]
  · intro t h
    obtain ⟨e, he, _⟩ := h mr
    refine ⟨e, ?_⟩
    have hrun := (scrapeGo_allFail t h mr 0 e (by rwa [Nat.zero_add])).1
    simp [scrape_with_semaphore, async_scrape, hrun]

/-- C1 witness: the amended batch theorem applied to a two-element batch with
an always-auth-failing and an always-transiently-failing transport. -/
theorem c1_batch_always_delivers_witness :
    (concurrent_scrape [alwaysAuthError, alwaysRequestError] 2).length = 2 ∧
    (∃ m c, (scrape_with_semaphore alwaysAuthError 2).1 = .scrapflyError m c) ∧
    (∃ e, (scrape_with_semaphore alwaysRequestError 2).1 = .response (emptyResponse e)) :=
  ⟨(c1_batch_always_delivers [alwaysAuthError, alwaysRequestError] 2).1,
   (c1_batch_always_delivers [alwaysAuthError, alwaysRequestError] 2).2.1 alwaysAuthError
     (fun _ => ⟨"bad key", some "CODE-0001", rfl⟩),
   (c1_batch_always_delivers [alwaysAuthError, alwaysRequestError] 2).2.2 alwaysRequestError
     (fun _ => ⟨.requestError "boom" (some "UNKNOWN"), rfl, rfl⟩)⟩

/-! ### Claim C2 -/

/-- C2 counterexample: the claim asserts the concurrency slot is never held
while a request sleeps for backoff. On the code, `scrape_with_semaphore` runs
the whole retry loop inside `async with semaphore`, so for a transport that
fails twice before succeeding, both backoff sleeps occur between the acquire
and the release of the slot. -/
theorem c2_counterexample :
    (scrape_with_semaphore failTwiceTransport 3).2 =
      [.acquire, .call 0, .sleep 0, .call 1, .sleep 1, .call 2, .release] ∧
    sleepsWhileHeld (scrape_with_semaphore failTwiceTransport 3).2 0 = true :=
  ⟨rfl, rfl⟩

/-- C2 (amended): the semaphore slot is acquired once per request, before its
first attempt, and released only after `async_scrape` returns; it is held
across the entire retry loop, so every backoff sleep of the request occurs
while the slot is held. -/
theorem c2_slot_held_across_backoff (t : Transport) (mr : Nat) :
    (scrape_with_semaphore t mr).2 = .acquire :: (async_scrape t mr).2 ++ [.release] ∧
    ((async_scrape t mr).2.any isSleep = true →
      sleepsWhileHeld (scrape_with_semaphore t mr).2 0 = true) := by
  refine ⟨rfl, fun hs => ?_⟩
  show sleepsWhileHeld (.acquire :: ((async_scrape t mr).2 ++ [.release])) 0 = true
  show sleepsWhileHeld ((async_scrape t mr).2 ++ [.release]) (0 + 1) = true
  exact sleeps_held _ (scrapeGo_events t mr 0) hs

/-- C2 witness: the amended theorem applied to a transport failing on its
first attempt with one retry allowed. -/
theorem c2_slot_held_across_backoff_witness :
    (scrape_with_semaphore failOnceTransport 1).2 =
      .acquire :: (async_scrape failOnceTransport 1).2 ++ [.release] ∧
    sleepsWhileHeld (scrape_with_semaphore failOnceTransport 1).2 0 = true :=
  ⟨(c2_slot_held_across_backoff failOnceTransport 1).1,
   (c2_slot_held_across_backoff failOnceTransport 1).2 (by decide)⟩

/-! ### Claim C3 -/

/-- C3: when every attempt of the transport raises `ScrappeyAuthError`,
`async_scrape` invokes the transport exactly once — regardless of the
configured `max_retries` — and re-raises the auth error. -/
theorem c3_auth_never_retried (t : Transport) (mr : Nat)
    (h : ∀ i, ∃ m c, t i = .error (.authError m c)) :
    callCount (async_scrape t mr).2 = 1 ∧
    ∃ m c, (async_scrape t mr).1 = .authRaise (.authError m c) := by
  obtain ⟨m, c, h0⟩ := h 0
  cases mr with
  | zero =>
    exact ⟨by simp [async_scrape, scrapeGo, h0, isAuthErr, callCount, List.filter, isCall],
           m, c, by simp [async_scrape, scrapeGo, h0, isAuthErr]⟩
  | succ r =>
    exact ⟨by simp [async_scrape, scrapeGo, h0, isAuthErr, callCount, List.filter, isCall],
           m, c, by simp [async_scrape, scrapeGo, h0, isAuthErr]⟩

/-- C3 witness: the always-auth-failing transport with `max_retries = 3` is
called exactly once. -/
theorem c3_auth_never_retried_witness :
    callCount (async_scrape alwaysAuthError 3).2 = 1 ∧
    ∃ m c, (async_scrape alwaysAuthError 3).1 = .authRaise (.authError m c) :=
  c3_auth_never_retried alwaysAuthError 3 (fun _ => ⟨"bad key", some "CODE-0001", rfl⟩)

/-! ### Claim C4 -/

/-- C4: a request whose every attempt fails with a non-auth error is attempted
`max_retries + 1` times by `async_scrape`; in particular with
`max_retries = 3` it is attempted exactly 4 times. -/
theorem c4_transient_attempt_count (t : Transport) (mr : Nat)
    (h : ∀ i, ∃ e, t i = .error e ∧ isAuthErr e = false) :
    callCount (async_scrape t mr).2 = mr + 1 ∧
    callCount (async_scrape t 3).2 = 4 := by
  obtain ⟨e, he, _⟩ := h mr
  obtain ⟨e3, he3, _⟩ := h 3
  exact ⟨(scrapeGo_allFail t h mr 0 e (by rwa [Nat.zero_add])).2,
         (scrapeGo_allFail t h 3 0 e3 (by rwa [Nat.zero_add])).2⟩

/-- C4 witness: the always-transiently-failing transport with
`max_retries = 3` is attempted 4 times. -/
theorem c4_transient_attempt_count_witness :
    callCount (async_scrape alwaysRequestError 3).2 = 3 + 1 ∧
    callCount (async_scrape alwaysRequestError 3).2 = 4 :=
  c4_transient_attempt_count alwaysRequestError 3
    (fun _ => ⟨.requestError "boom" (some "UNKNOWN"), rfl, rfl⟩)

/-! ### Claim C5 -/

/-- C5 counterexample: the claim puts the lower bound of the backoff interval
at `base * 2^a * 0.75`, without the cap. With `base = 1`, `cap = 30`, attempt
index `a = 6` and a central jitter draw `r = 1/2`, the code caps the delay to
30 before jittering, so the delay is 30, strictly below the claimed lower
bound `1 * 2^6 * 0.75 = 48` (the claimed interval `[48, 37.5]` is empty). -/
theorem c5_counterexample :
    ¬ ((1 : ℚ) * 2 ^ 6 * (3 / 4) ≤ _get_retry_delay 1 30 6 (1 / 2) ∧
       _get_retry_delay 1 30 6 (1 / 2) ≤ min ((1 : ℚ) * 2 ^ 6) 30 * (5 / 4)) := by
  have hv : _get_retry_delay 1 30 6 (1 / 2) = 30 := by norm_num [_get_retry_delay]
  rw [hv]
  norm_num

/-- C5 (amended): for nonnegative base delay and cap and a jitter draw
`r ∈ [0, 1]`, the backoff delay for attempt index `a` lies within
`[min(base * 2^a, cap) * 0.75, min(base * 2^a, cap) * 1.25]` — the cap applies
to the lower bound as well. -/
theorem c5_backoff_within_capped_interval (base cap : ℚ) (a : Nat) (r : ℚ)
    (hbase : 0 ≤ base) (hcap : 0 ≤ cap) (hr0 : 0 ≤ r) (hr1 : r ≤ 1) :
    min (base * 2 ^ a) cap * (3 / 4) ≤ _get_retry_delay base cap a r ∧
    _get_retry_delay base cap a r ≤ min (base * 2 ^ a) cap * (5 / 4) := by
  have hd : (0 : ℚ) ≤ min (base * 2 ^ a) cap := by
    have h2 : (0 : ℚ) ≤ base * 2 ^ a :=
      mul_nonneg hbase (pow_nonneg (by norm_num) a)
    exact le_min h2 hcap
  have key : _get_retry_delay base cap a r =
      min (base * 2 ^ a) cap + min (base * 2 ^ a) cap * (1 / 4) * (2 * r - 1) := rfl
  rw [key]
  constructor
  · nlinarith [mul_nonneg hd hr0]
  · nlinarith [mul_nonneg hd (sub_nonneg.mpr hr1)]

/-- C5 witness: the amended bound at `base = 1`, `cap = 30`, `a = 1`,
`r = 1/2`. -/
theorem c5_backoff_within_capped_interval_witness :
    min ((1 : ℚ) * 2 ^ 1) 30 * (3 / 4) ≤ _get_retry_delay 1 30 1 (1 / 2) ∧
    _get_retry_delay 1 30 1 (1 / 2) ≤ min ((1 : ℚ) * 2 ^ 1) 30 * (5 / 4) :=
  c5_backoff_within_capped_interval 1 30 1 (1 / 2)
    (by norm_num) (by norm_num) (by norm_num) (by norm_num)

/-! ### Claim C6 -/

/-- C6: for every integer `max_concurrency`, client construction with a
truthy API key succeeds (out-of-range values are never rejected) and the
stored bound equals `max 1 (min max_concurrency 100)`; in particular 0 and
negative values clamp to 1 and 500 clamps to 100. -/
theorem c6_concurrency_clamped (k : String) (envKey : Option String) (mc : Int)
    (hk : k ≠ "") :
    (∃ c, mkClient (some k) envKey mc = .ok c ∧
       c.max_concurrency = max 1 (min mc 100)) ∧
    clampConcurrency 0 = 1 ∧ clampConcurrency (-7) = 1 ∧ clampConcurrency 500 = 100 := by
  refine ⟨⟨{ api_key := k, max_concurrency := clampConcurrency mc }, ?_, ?_⟩,
          by decide, by decide, by decide⟩
  · simp [mkClient, pyTruthyStr, hk]
  · show clampConcurrency mc = max 1 (min mc 100)
    unfold clampConcurrency MAX_ALLOWED_CONCURRENCY
    split_ifs <;> omega

/-- C6 witness: constructing with key `"k"` and `max_concurrency = 500`. -/
theorem c6_concurrency_clamped_witness :
    (∃ c, mkClient (some "k") none 500 = .ok c ∧
       c.max_concurrency = max 1 (min 500 100)) ∧
    clampConcurrency 0 = 1 ∧ clampConcurrency (-7) = 1 ∧ clampConcurrency 500 = 100 :=
  c6_concurrency_clamped "k" none 500 (by decide)

/-! ### Claim C7 -/

/-- C7: the browser-actions array built by `to_scrappey_payload` decomposes,
in order, into the selector-wait entry (if the selector is truthy), then the
`js_scenario` actions converted in their given order, then the standalone
`js` execution (if truthy), then the auto-scroll entry (if set), then the
post-render wait (if truthy); and the spec's concrete round-trip — a selector
wait, a click, a scripted wait, and auto-scroll — yields exactly 4 entries in
the order wait-for-selector, action 1, action 2, scroll. -/
theorem c7_browser_actions_order (cfg : ScrapeConfig) :
    browser_actions cfg =
      (if optStrTruthy cfg.wait_for_selector then
        [BAction.waitForSelector cfg.wait_for_selector 30000 (extraIgnoreErrors cfg)]
       else []) ++
      (cfg.js_scenario.getD []).map _convert_js_scenario_action ++
      (if optStrTruthy cfg.js then [BAction.executeJs (cfg.js.getD "")] else []) ++
      (if cfg.auto_scroll then [BAction.scroll none] else []) ++
      (if optIntTruthy cfg.rendering_wait then
        [BAction.wait (waitSeconds (cfg.rendering_wait.getD 0))] else []) ∧
    browser_actions exampleCfg =
      [BAction.waitForSelector (some "#content") 30000 false,
       BAction.click (some "#load-more") false,
       BAction.wait 2,
       BAction.scroll none] := by
  refine ⟨?_, rfl⟩
  have hmap : optListTruthy cfg.js_scenario = false →
      (cfg.js_scenario.getD []).map _convert_js_scenario_action = [] :=
    map_getD_of_not_truthy _ _
  simp only [browser_actions]
  cases h1 : optStrTruthy cfg.wait_for_selector <;>
  cases h2 : optListTruthy cfg.js_scenario <;>
  cases h3 : optStrTruthy cfg.js <;>
  cases h4 : cfg.auto_scroll <;>
  cases h5 : optIntTruthy cfg.rendering_wait <;>
  simp [h1, h2, h3, h4, h5, hmap]

/-! ### Claim C8 -/

/-- C8: for a decoded response body containing an `error` field,
`_make_request` classifies from the body independently of the HTTP status:
vendor code `CODE-0001` raises `ScrappeyAuthError`; otherwise a
case-insensitive `"timeout"` substring in the error text raises
`ScrappeyTimeoutError`; otherwise `ScrappeyRequestError` carries the vendor
code and message. -/
theorem c8_body_classification (status status2 : Int) (body : RespBody) (msg : String)
    (h : body.error = some msg) :
    _make_request (.resp status body) = _make_request (.resp status2 body) ∧
    (body.code.getD "UNKNOWN" = "CODE-0001" →
      _make_request (.resp status body) =
        .error (.authError msg (some (body.code.getD "UNKNOWN")))) ∧
    (body.code.getD "UNKNOWN" ≠ "CODE-0001" →
      containsSub (strLower msg) "timeout" = true →
      _make_request (.resp status body) =
        .error (.timeoutError msg (some (body.code.getD "UNKNOWN")))) ∧
    (body.code.getD "UNKNOWN" ≠ "CODE-0001" →
      containsSub (strLower msg) "timeout" = false →
      _make_request (.resp status body) =
        .error (.requestError msg (some (body.code.getD "UNKNOWN")))) := by
  refine ⟨rfl, fun h1 => ?_, fun h1 h2 => ?_, fun h1 h2 => ?_⟩
  · simp [_make_request, h, h1]
  · simp [_make_request, h, h1, h2]
  · simp [_make_request, h, h1, h2]

/-- The decoded body of a vendor response reporting a timeout with a
non-auth error code. -/
def timeoutBody : RespBody := { error := some "Request Timeout", code := some "CODE-0042" }

/-- C8 witness: a body whose error text contains "Timeout" (case-insensitive
match) with a non-auth vendor code is classified as `ScrappeyTimeoutError`,
at two different HTTP status values. -/
theorem c8_body_classification_witness :
    _make_request (.resp 200 timeoutBody) =
      .error (.timeoutError "Request Timeout" (some "CODE-0042")) :=
  (c8_body_classification 200 500 timeoutBody "Request Timeout" rfl).2.2.1
    (by decide) (by decide)

/-! ### Claim C9 -/

/-- C9 counterexample: the claim asserts the terminal outcome's message
includes both the attempt count and the last error. With `max_retries = 3`
and a transport always failing with message `"boom"`, 4 attempts are made and
the returned outcome's `error` field is exactly `"boom"`; the decimal numeral
`"4"` of the attempt count does not occur in it (the attempt count is only
printed to the console, not stored in the outcome). -/
theorem c9_counterexample :
    (async_scrape alwaysRequestError 3).1 =
      .ok (emptyResponse (.requestError "boom" (some "UNKNOWN"))) ∧
    callCount (async_scrape alwaysRequestError 3).2 = 4 ∧
    (emptyResponse (.requestError "boom" (some "UNKNOWN"))).error = some "boom" ∧
    containsSub "boom" "4" = false :=
  ⟨rfl, rfl, rfl, by decide⟩

/-- C9 (amended): after retries are exhausted on non-auth failures, the
terminal outcome is the synthetic empty response whose `error` field carries
exactly the string of the last underlying error (`str(last_error)`); the
attempt count does not appear in the outcome, only in console logging. -/
theorem c9_terminal_outcome_message (t : Transport) (mr : Nat) (e : ScrapErr)
    (h : ∀ i, ∃ e', t i = .error e' ∧ isAuthErr e' = false)
    (hl : t mr = .error e) :
    (async_scrape t mr).1 = .ok (emptyResponse e) ∧
    (emptyResponse e).error = some (strOfErr e) ∧
    callCount (async_scrape t mr).2 = mr + 1 :=
  ⟨(scrapeGo_allFail t h mr 0 e (by rwa [Nat.zero_add])).1, rfl,
   (scrapeGo_allFail t h mr 0 e (by rwa [Nat.zero_add])).2⟩

/-- C9 witness: the amended theorem at the always-failing transport with
`max_retries = 2`. -/
theorem c9_terminal_outcome_message_witness :
    (async_scrape alwaysRequestError 2).1 =
      .ok (emptyResponse (.requestError "boom" (some "UNKNOWN"))) ∧
    (emptyResponse (.requestError "boom" (some "UNKNOWN"))).error =
      some (strOfErr (.requestError "boom" (some "UNKNOWN"))) ∧
    callCount (async_scrape alwaysRequestError 2).2 = 2 + 1 :=
  c9_terminal_outcome_message alwaysRequestError 2 (.requestError "boom" (some "UNKNOWN"))
    (fun _ => ⟨.requestError "boom" (some "UNKNOWN"), rfl, rfl⟩) rfl

/-! ### Claim C10 -/

/-- C10: retry eligibility is unconditional for non-auth failures — a
transport always failing with any non-auth error is attempted
`max_retries + 1` times, so the attempt count never depends on the message
content; in particular the message `"quota exceeded"`, which matches no
keyword of `RETRYABLE_ERRORS` (so `_is_retryable_error` rejects it), is still
retried the full `max_retries + 1` times: the keyword list is never consulted
by the retry loop. -/
theorem c10_retry_ignores_keyword_list (mr : Nat) (e : ScrapErr)
    (he : isAuthErr e = false) :
    callCount (async_scrape (fun _ => .error e) mr).2 = mr + 1 ∧
    _is_retryable_error "quota exceeded" = false ∧
    callCount (async_scrape (fun _ => .error (.requestError "quota exceeded" none)) mr).2 =
      mr + 1 :=
  ⟨(scrapeGo_allFail _ (fun _ => ⟨e, rfl, he⟩) mr 0 e rfl).2,
   by decide,
   (scrapeGo_allFail _ (fun _ => ⟨.requestError "quota exceeded" none, rfl, rfl⟩) mr 0
     (.requestError "quota exceeded" none) rfl).2⟩

/-- C10 witness: the theorem at `max_retries = 3` with a non-auth error whose
message matches no retryable keyword. -/
theorem c10_retry_ignores_keyword_list_witness :
    callCount (async_scrape (fun _ => .error (.requestError "boom" (some "UNKNOWN"))) 3).2 =
      3 + 1 ∧
    _is_retryable_error "quota exceeded" = false ∧
    callCount (async_scrape (fun _ => .error (.requestError "quota exceeded" none)) 3).2 =
      3 + 1 :=
  c10_retry_ignores_keyword_list 3 (.requestError "boom" (some "UNKNOWN")) rfl

end Scrappey
